import Mathlib

/-! Shallow embedding of the dynamic-pricing core of `src/main.py`
(`DynamicPricingEngine._get_base_markup`, `_factor`, the three price
calculators, the strategy registry and `calculate` with its history append).

Modelling conventions:
* Python floats are modelled as exact rationals (`ℚ`); `round(x, 2)` is
  modelled by `round2`, rounding to the nearest multiple of 1/100 using
  Mathlib's `round` (ties rounded up; Python rounds ties to even, which
  agrees away from exact half-cent ties, and every general bound proved
  here only uses that the result is within 1/200 of the argument, which
  holds for either tie-breaking rule).
* Python's `ZeroDivisionError` on `base / req.competitor_price` when
  `competitor_price == 0` is modelled by an explicit `Except.error`
  branch, since division is fallible in the source.
* The storage collaborator used by `calculate` (a scoped database session
  performing a single `add` + `commit`) is modelled by a list of history
  records plus a boolean `append_ok` telling whether the append/commit
  succeeds; on failure the exception propagates and the session closes
  without committing, so the stored list is returned unchanged. -/

namespace DynamicPricing

/-- Mirrors the pydantic `PricingRequest` model (src/main.py lines 35-42);
`customer_segment` and `seasonality_factor` carry the same defaults. -/
structure PricingRequest where
  product_id : String
  cost_price : ℚ
  demand_score : ℤ
  inventory : ℤ
  competitor_price : ℚ
  customer_segment : String := "standard"
  seasonality_factor : ℚ := 1
deriving DecidableEq

/-- The dict returned by each calculator (product_id, dynamic_price,
base_price, strategy). -/
structure PriceQuote where
  product_id : String
  dynamic_price : ℚ
  base_price : ℚ
  strategy : String
deriving DecidableEq

/-- Mirrors the persisted `PricingHistory` row (src/main.py lines 44-56),
minus the database-generated `id` and `timestamp` columns; `conversion_rate`
and `revenue_generated` keep their column defaults of 0. -/
structure PricingHistory where
  product_id : String
  original_price : ℚ
  dynamic_price : ℚ
  demand_score : ℤ
  inventory : ℤ
  competitor_price : ℚ
  strategy_used : String
  conversion_rate : ℚ := 0
  revenue_generated : ℚ := 0
deriving DecidableEq

/-- The two ways a `calculate` call can fail: the `ZeroDivisionError`
raised by the default calculator, and a failure of the storage append. -/
inductive EngineError where
  | arithmeticFault
  | storageWriteFailure
deriving DecidableEq

/-- Python's `round(x, 2)`: round to the nearest multiple of 1/100. -/
def round2 (q : ℚ) : ℚ := (round (q * 100) : ℤ) / 100

/-- `DynamicPricingEngine._get_base_markup` (src/main.py lines 77-82):
a ten-entry dict lookup with `.get(ds, 0.30)` fallback. -/
def get_base_markup (ds : ℤ) : ℚ :=
  if ds = 1 then 15/100 else if ds = 2 then 18/100
  else if ds = 3 then 20/100 else if ds = 4 then 25/100
  else if ds = 5 then 30/100 else if ds = 6 then 35/100
  else if ds = 7 then 42/100 else if ds = 8 then 50/100
  else if ds = 9 then 60/100 else if ds = 10 then 75/100
  else 30/100

/-- `DynamicPricingEngine._factor` (src/main.py lines 84-88):
`for th, f in zip(thresholds, factors): if value <= th: return f` and then
`return factors[-1]`. `none` corresponds to the `IndexError` that
`factors[-1]` would raise on an empty factor list. -/
def factor (value : ℚ) (thresholds factors : List ℚ) : Option ℚ :=
  match (thresholds.zip factors).find? (fun p => decide (value ≤ p.1)) with
  | some p => some p.2
  | none => factors.getLast?

/-- `DynamicPricingEngine._calculate_default_price` (src/main.py lines
108-127). The division `base / req.competitor_price` raises
`ZeroDivisionError` when `competitor_price == 0`, hence the error branch. -/
def calculate_default_price (req : PricingRequest) : Except EngineError PriceQuote :=
  if req.competitor_price = 0 then .error .arithmeticFault else
  let base := req.cost_price * (1 + get_base_markup req.demand_score)
  let demand_factor := (factor (req.demand_score : ℚ) [3, 7] [85/100, 1, 125/100]).getD 0
  let inv_factor := (factor (req.inventory : ℚ) [10, 100] [115/100, 1, 90/100]).getD 0
  let comp_ratio := base / req.competitor_price
  let comp_factor : ℚ := if comp_ratio > 11/10 then 95/100 else if comp_ratio < 9/10 then 105/100 else 1
  let seg_factor : ℚ :=
    if req.customer_segment = "premium" then 12/10
    else if req.customer_segment = "standard" then 1
    else if req.customer_segment = "budget" then 85/100
    else if req.customer_segment = "loyalty" then 9/10
    else 1
  let price := base * demand_factor * inv_factor * comp_factor * req.seasonality_factor * seg_factor
  let clamped := max (req.cost_price * (11/10)) (min price (req.competitor_price * (12/10)))
  .ok { product_id := req.product_id, dynamic_price := round2 clamped,
        base_price := round2 base, strategy := "default" }

/-- `DynamicPricingEngine._calculate_aggressive_price` (src/main.py lines
129-140): no division, no inventory, competitor-ratio, segment or
seasonality factors. -/
def calculate_aggressive_price (req : PricingRequest) : Except EngineError PriceQuote :=
  let base := req.cost_price * (1 + get_base_markup req.demand_score + 10/100)
  let demand_factor := (factor (req.demand_score : ℚ) [3, 7] [90/100, 11/10, 14/10]).getD 0
  let price := base * demand_factor
  let clamped := max (req.cost_price * (105/100)) (min price (req.competitor_price * (11/10)))
  .ok { product_id := req.product_id, dynamic_price := round2 clamped,
        base_price := round2 base, strategy := "aggressive" }

/-- `DynamicPricingEngine._calculate_conservative_price` (src/main.py lines
142-153). -/
def calculate_conservative_price (req : PricingRequest) : Except EngineError PriceQuote :=
  let base := req.cost_price * (1 + get_base_markup req.demand_score - 5/100)
  let demand_factor := (factor (req.demand_score : ℚ) [3, 7] [80/100, 95/100, 115/100]).getD 0
  let price := base * demand_factor
  let clamped := max (req.cost_price * (115/100)) (min price (req.competitor_price * (95/100)))
  .ok { product_id := req.product_id, dynamic_price := round2 clamped,
        base_price := round2 base, strategy := "conservative" }

/-- The `price_adjustment_strategies` dict built in `__init__`
(src/main.py lines 71-75), as a partial lookup; `none` models a missing
key. -/
def price_adjustment_strategies (name : String) :
    Option (PricingRequest → Except EngineError PriceQuote) :=
  if name = "default" then some calculate_default_price
  else if name = "aggressive" then some calculate_aggressive_price
  else if name = "conservative" then some calculate_conservative_price
  else none

/-- `DynamicPricingEngine.calculate` (src/main.py lines 90-106):
`self.price_adjustment_strategies.get(strategy, self._calculate_default_price)`
selects the calculator; a calculator exception propagates before any storage
access; otherwise one `PricingHistory` record is added and committed inside
the scoped session. `store` is the persisted history, `append_ok` tells
whether the append/commit succeeds; on any failure the store is unchanged
and the error propagates instead of the quote. -/
def calculate (store : List PricingHistory) (append_ok : Bool)
    (req : PricingRequest) (strategy : String := "default") :
    Except EngineError PriceQuote × List PricingHistory :=
  match (price_adjustment_strategies strategy).getD calculate_default_price req with
  | .error e => (.error e, store)
  | .ok price_data =>
    let record : PricingHistory :=
      { product_id := req.product_id
        original_price := price_data.base_price
        dynamic_price := price_data.dynamic_price
        demand_score := req.demand_score
        inventory := req.inventory
        competitor_price := req.competitor_price
        strategy_used := strategy }
    if append_ok then (.ok price_data, store ++ [record])
    else (.error .storageWriteFailure, store)

/-- The worked example of the specification: cost 10, demand 5, inventory
50, competitor 20, standard segment, seasonality 1. -/
def exReq : PricingRequest :=
  { product_id := "PROD-001", cost_price := 10, demand_score := 5,
    inventory := 50, competitor_price := 20 }

/-- Default-calculator output on `exReq`: dynamic 13.65, base 13. -/
def exQuoteDefault : PriceQuote :=
  { product_id := "PROD-001", dynamic_price := 1365/100, base_price := 13,
    strategy := "default" }

/-- Aggressive-calculator output on `exReq`: dynamic 15.40, base 14. -/
def exQuoteAggressive : PriceQuote :=
  { product_id := "PROD-001", dynamic_price := 154/10, base_price := 14,
    strategy := "aggressive" }

/-- Conservative-calculator output on `exReq`: dynamic 11.88, base 12.5. -/
def exQuoteConservative : PriceQuote :=
  { product_id := "PROD-001", dynamic_price := 1188/100, base_price := 125/10,
    strategy := "conservative" }

/-- The history record appended by a successful default-strategy
`calculate` on `exReq`. -/
def exRecord : PricingHistory :=
  { product_id := "PROD-001", original_price := 13, dynamic_price := 1365/100,
    demand_score := 5, inventory := 50, competitor_price := 20,
    strategy_used := "default" }

/-- A request with `competitor_price = 0`, triggering the division fault in
the default calculator only. -/
def reqZeroComp : PricingRequest :=
  { product_id := "PROD-001", cost_price := 10, demand_score := 5,
    inventory := 50, competitor_price := 0 }

/-- A request whose competitor price is positive but far below cost, so the
clamp floor exceeds the clamp ceiling in the default and aggressive bands. -/
def cexReqLowComp : PricingRequest :=
  { product_id := "PROD-001", cost_price := 100, demand_score := 5,
    inventory := 50, competitor_price := 10 }

/-- Default-calculator output on `cexReqLowComp`: dynamic 110, base 130,
above the nominal ceiling 12. -/
def cexQuoteDefault : PriceQuote :=
  { product_id := "PROD-001", dynamic_price := 110, base_price := 130,
    strategy := "default" }

/-- Aggressive-calculator output on `cexReqLowComp`: dynamic 105, base 140,
above the nominal ceiling 11. -/
def cexQuoteAggressive : PriceQuote :=
  { product_id := "PROD-001", dynamic_price := 105, base_price := 140,
    strategy := "aggressive" }

/-- A conservative-strategy request with cost 100.001, whose clamp floor
115.00115 is not a multiple of a cent and exceeds the ceiling 85.5. -/
def cexReqConservative : PricingRequest :=
  { product_id := "PROD-001", cost_price := 100001/1000, demand_score := 1,
    inventory := 50, competitor_price := 90 }

/-- Conservative-calculator output on `cexReqConservative`: dynamic 115
(the floor 115.00115 rounded down to a cent), base 110. -/
def cexQuoteConservative : PriceQuote :=
  { product_id := "PROD-001", dynamic_price := 115, base_price := 110,
    strategy := "conservative" }

theorem sub_le_round2 (q : ℚ) : q - 1/200 ≤ round2 q := by
  have h := abs_le.mp (abs_sub_round (q * 100))
  unfold round2
  linarith [h.2]

theorem round2_le_add (q : ℚ) : round2 q ≤ q + 1/200 := by
  have h := abs_le.mp (abs_sub_round (q * 100))
  unfold round2
  linarith [h.1]

theorem round2_clamp_band (f c p : ℚ) :
    f - 1/200 ≤ round2 (max f (min p c)) ∧ round2 (max f (min p c)) ≤ max f c + 1/200 := by
  constructor
  · have h1 : f ≤ max f (min p c) := le_max_left _ _
    have h2 := sub_le_round2 (max f (min p c))
    linarith
  · have h1 : max f (min p c) ≤ max f c := max_le_max le_rfl (min_le_right _ _)
    have h2 := round2_le_add (max f (min p c))
    linarith

/-- C7: for every demand score in 1..10, the markup table returns the
documented value; every other integer yields the 0.30 fallback and no
error. -/
theorem base_markup_table :
    (get_base_markup 1 = 15/100 ∧ get_base_markup 2 = 18/100 ∧ get_base_markup 3 = 20/100 ∧
     get_base_markup 4 = 25/100 ∧ get_base_markup 5 = 30/100 ∧ get_base_markup 6 = 35/100 ∧
     get_base_markup 7 = 42/100 ∧ get_base_markup 8 = 50/100 ∧ get_base_markup 9 = 60/100 ∧
     get_base_markup 10 = 75/100) ∧
    ∀ ds : ℤ, (ds < 1 ∨ 10 < ds) → get_base_markup ds = 30/100 := by
  constructor
  · norm_num [get_base_markup]
  · intro ds h
    have n1 : ds ≠ 1 := by omega
    have n2 : ds ≠ 2 := by omega
    have n3 : ds ≠ 3 := by omega
    have n4 : ds ≠ 4 := by omega
    have n5 : ds ≠ 5 := by omega
    have n6 : ds ≠ 6 := by omega
    have n7 : ds ≠ 7 := by omega
    have n8 : ds ≠ 8 := by omega
    have n9 : ds ≠ 9 := by omega
    have n10 : ds ≠ 10 := by omega
    simp [get_base_markup, n1, n2, n3, n4, n5, n6, n7, n8, n9, n10]

theorem base_markup_table_witness :
    ((0:ℤ) < 1 ∨ 10 < (0:ℤ)) ∧ get_base_markup 0 = 30/100 :=
  ⟨Or.inl (by norm_num), base_markup_table.2 0 (Or.inl (by norm_num))⟩

theorem factor_cons_of_ne_nil (value t f : ℚ) (ts fs : List ℚ) (hfs : fs ≠ []) :
    factor value (t :: ts) (f :: fs) =
      if value ≤ t then some f else factor value ts fs := by
  obtain ⟨g, gs, rfl⟩ : ∃ g gs, fs = g :: gs := by
    cases fs with
    | nil => exact absurd rfl hfs
    | cons g gs => exact ⟨g, gs, rfl⟩
  by_cases hv : value ≤ t
  · simp [factor, List.find?, decide_eq_true hv, hv]
  · rw [if_neg hv]
    unfold factor
    rw [List.zip_cons_cons, List.find?_cons_of_neg _ (by simpa using hv)]
    cases hm : List.find? (fun p => decide (value ≤ p.1)) (ts.zip (g :: gs)) with
    | none => simp [List.getLast?_cons_cons]
    | some pr => rfl

/-- C8: for a threshold list of length N and a factor list of length N+1,
the resolver scans the thresholds in order and returns the factor paired
with the first threshold that the value does not exceed, and the last
factor when the value exceeds every threshold, with no sortedness
assumption on the thresholds. -/
theorem factor_first_match (value : ℚ) :
    ∀ (ts fs : List ℚ), fs.length = ts.length + 1 →
      (∀ i, i < ts.length → (∀ j, j < i → ¬ value ≤ ts.getD j 0) →
        value ≤ ts.getD i 0 → factor value ts fs = some (fs.getD i 0)) ∧
      ((∀ j, j < ts.length → ¬ value ≤ ts.getD j 0) →
        factor value ts fs = some (fs.getD ts.length 0)) := by
  intro ts
  induction ts with
  | nil =>
    intro fs hlen
    obtain ⟨f, rfl⟩ : ∃ a, fs = [a] := by
      cases fs with
      | nil => simp at hlen
      | cons a t =>
        cases t with
        | nil => exact ⟨a, rfl⟩
        | cons b t2 => simp at hlen
    exact ⟨fun i hi => by simp at hi, fun _ => rfl⟩
  | cons t ts ih =>
    intro fs hlen
    obtain ⟨f, fs', rfl⟩ : ∃ a t2, fs = a :: t2 := by
      cases fs with
      | nil => simp at hlen
      | cons a t2 => exact ⟨a, t2, rfl⟩
    have hlen' : fs'.length = ts.length + 1 := by simpa using hlen
    have hfs' : fs' ≠ [] := by
      cases fs' with
      | nil => simp at hlen'
      | cons g gs => simp
    have hcons := factor_cons_of_ne_nil value t f ts fs' hfs'
    obtain ⟨ih1, ih2⟩ := ih fs' hlen'
    constructor
    · intro i hi hprev hval
      cases i with
      | zero =>
        simp only [List.getD_cons_zero] at hval
        rw [hcons, if_pos hval]
        simp
      | succ n =>
        have hv : ¬ value ≤ t := by
          have := hprev 0 (Nat.succ_pos n)
          simpa using this
        rw [hcons, if_neg hv]
        have hrec := ih1 n (by simpa using hi)
          (fun j hj => by simpa using hprev (j + 1) (by omega))
          (by simpa using hval)
        simpa using hrec
    · intro hall
      have hv : ¬ value ≤ t := by simpa using hall 0 (by simp)
      rw [hcons, if_neg hv]
      have hrec := ih2 (fun j hj => by simpa using hall (j + 1) (by simpa using hj))
      simpa using hrec

theorem factor_first_match_witness :
    (([85/100, 1, 125/100] : List ℚ).length = ([3, 7] : List ℚ).length + 1 ∧
      1 < ([3, 7] : List ℚ).length ∧ ¬ (5:ℚ) ≤ ([3, 7] : List ℚ).getD 0 0 ∧
      (5:ℚ) ≤ ([3, 7] : List ℚ).getD 1 0) ∧
    factor 5 [3, 7] [85/100, 1, 125/100] = some (([85/100, 1, 125/100] : List ℚ).getD 1 0) := by
  refine ⟨⟨rfl, by norm_num, by norm_num, by norm_num⟩, ?_⟩
  exact (factor_first_match 5 [3, 7] [85/100, 1, 125/100] rfl).1 1 (by norm_num)
    (fun j hj => by
      have hj0 : j = 0 := by omega
      subst hj0
      norm_num)
    (by norm_num)

/-- C1 (amended): for every request with positive competitor price, the
default calculator's dynamic price lies within the clamp band up to the
half-cent that the 2-decimal rounding can add on either side, with the
ceiling replaced by the floor whenever the floor exceeds it (the clamp
formula yields the floor in that inverted case). -/
theorem default_price_band (req : PricingRequest) (hcomp : 0 < req.competitor_price)
    (q : PriceQuote) (hq : calculate_default_price req = .ok q) :
    req.cost_price * (11/10) - 1/200 ≤ q.dynamic_price ∧
    q.dynamic_price ≤ max (req.cost_price * (11/10)) (req.competitor_price * (12/10)) + 1/200 := by
  have hne : ¬ req.competitor_price = 0 := ne_of_gt hcomp
  unfold calculate_default_price at hq
  rw [if_neg hne] at hq
  simp only [Except.ok.injEq] at hq
  subst hq
  exact round2_clamp_band _ _ _

theorem default_price_band_witness :
    (0 < exReq.competitor_price ∧ calculate_default_price exReq = .ok exQuoteDefault) ∧
    (exReq.cost_price * (11/10) - 1/200 ≤ exQuoteDefault.dynamic_price ∧
     exQuoteDefault.dynamic_price ≤
       max (exReq.cost_price * (11/10)) (exReq.competitor_price * (12/10)) + 1/200) := by
  have hq : calculate_default_price exReq = .ok exQuoteDefault := by
    simp only [calculate_default_price, exReq, exQuoteDefault, get_base_markup, factor,
      round2, List.find?, List.zip,
      show ("standard" = "premium") = False from by simp,
      show ("standard" = "standard") = True from by simp,
      if_false, if_true]
    norm_num [round_eq]
  exact ⟨⟨by norm_num [exReq], hq⟩,
    default_price_band exReq (by norm_num [exReq]) exQuoteDefault hq⟩

theorem default_band_cex :
    0 < cexReqLowComp.competitor_price ∧
    calculate_default_price cexReqLowComp = .ok cexQuoteDefault ∧
    ¬ cexQuoteDefault.dynamic_price ≤ cexReqLowComp.competitor_price * (12/10) := by
  refine ⟨by norm_num [cexReqLowComp], ?_, by norm_num [cexReqLowComp, cexQuoteDefault]⟩
  simp only [calculate_default_price, cexReqLowComp, cexQuoteDefault, get_base_markup, factor,
    round2, List.find?, List.zip,
    show ("standard" = "premium") = False from by simp,
    show ("standard" = "standard") = True from by simp,
    if_false, if_true]
  norm_num [round_eq]

/-- C3 (amended): for every request, the aggressive calculator's dynamic
price lies within the clamp band up to the half-cent that the 2-decimal
rounding can add on either side, with the ceiling replaced by the floor
whenever the floor exceeds it. -/
theorem aggressive_price_band (req : PricingRequest) (q : PriceQuote)
    (hq : calculate_aggressive_price req = .ok q) :
    req.cost_price * (105/100) - 1/200 ≤ q.dynamic_price ∧
    q.dynamic_price ≤ max (req.cost_price * (105/100)) (req.competitor_price * (11/10)) + 1/200 := by
  unfold calculate_aggressive_price at hq
  simp only [Except.ok.injEq] at hq
  subst hq
  exact round2_clamp_band _ _ _

theorem aggressive_price_band_witness :
    calculate_aggressive_price exReq = .ok exQuoteAggressive ∧
    (exReq.cost_price * (105/100) - 1/200 ≤ exQuoteAggressive.dynamic_price ∧
     exQuoteAggressive.dynamic_price ≤
       max (exReq.cost_price * (105/100)) (exReq.competitor_price * (11/10)) + 1/200) := by
  have hq : calculate_aggressive_price exReq = .ok exQuoteAggressive := by
    simp only [calculate_aggressive_price, exReq, exQuoteAggressive, get_base_markup, factor,
      round2, List.find?, List.zip]
    norm_num [round_eq]
  exact ⟨hq, aggressive_price_band exReq exQuoteAggressive hq⟩

theorem aggressive_band_cex :
    0 < cexReqLowComp.competitor_price ∧
    calculate_aggressive_price cexReqLowComp = .ok cexQuoteAggressive ∧
    ¬ cexQuoteAggressive.dynamic_price ≤ cexReqLowComp.competitor_price * (11/10) := by
  refine ⟨by norm_num [cexReqLowComp], ?_, by norm_num [cexReqLowComp, cexQuoteAggressive]⟩
  simp only [calculate_aggressive_price, cexReqLowComp, cexQuoteAggressive, get_base_markup,
    factor, round2, List.find?, List.zip]
  norm_num [round_eq]

/-- C2 (amended): the conservative calculator's dynamic price is at least
the floor minus the half-cent the 2-decimal rounding can remove; it is at
most the ceiling plus half a cent whenever the ceiling is at least the
floor; and whenever the floor exceeds the ceiling it equals the floor
rounded to 2 decimals, regardless of the raw computed price. -/
theorem conservative_price_band (req : PricingRequest) (q : PriceQuote)
    (hq : calculate_conservative_price req = .ok q) :
    req.cost_price * (115/100) - 1/200 ≤ q.dynamic_price ∧
    (req.cost_price * (115/100) ≤ req.competitor_price * (95/100) →
      q.dynamic_price ≤ req.competitor_price * (95/100) + 1/200) ∧
    (req.competitor_price * (95/100) < req.cost_price * (115/100) →
      q.dynamic_price = round2 (req.cost_price * (115/100))) := by
  unfold calculate_conservative_price at hq
  simp only [Except.ok.injEq] at hq
  subst hq
  refine ⟨(round2_clamp_band _ _ _).1, ?_, ?_⟩
  · intro hfc
    have h := (round2_clamp_band (req.cost_price * (115/100))
      (req.competitor_price * (95/100))
      (req.cost_price * (1 + get_base_markup req.demand_score - 5/100) *
        (factor (req.demand_score : ℚ) [3, 7] [80/100, 95/100, 115/100]).getD 0)).2
    rw [max_eq_right hfc] at h
    exact h
  · intro hcf
    dsimp only
    rw [max_eq_left (le_of_lt (lt_of_le_of_lt (min_le_right _ _) hcf))]

theorem conservative_price_band_witness :
    calculate_conservative_price exReq = .ok exQuoteConservative ∧
    (exReq.cost_price * (115/100) - 1/200 ≤ exQuoteConservative.dynamic_price ∧
     (exReq.cost_price * (115/100) ≤ exReq.competitor_price * (95/100) →
       exQuoteConservative.dynamic_price ≤ exReq.competitor_price * (95/100) + 1/200) ∧
     (exReq.competitor_price * (95/100) < exReq.cost_price * (115/100) →
       exQuoteConservative.dynamic_price = round2 (exReq.cost_price * (115/100)))) := by
  have hq : calculate_conservative_price exReq = .ok exQuoteConservative := by
    simp only [calculate_conservative_price, exReq, exQuoteConservative, get_base_markup,
      factor, round2, List.find?, List.zip]
    norm_num [round_eq]
  exact ⟨hq, conservative_price_band exReq exQuoteConservative hq⟩

theorem conservative_band_cex :
    calculate_conservative_price cexReqConservative = .ok cexQuoteConservative ∧
    ¬ cexReqConservative.cost_price * (115/100) ≤ cexQuoteConservative.dynamic_price := by
  refine ⟨?_, by norm_num [cexReqConservative, cexQuoteConservative]⟩
  simp only [calculate_conservative_price, cexReqConservative, cexQuoteConservative,
    get_base_markup, factor, round2, List.find?, List.zip]
  norm_num [round_eq]

/-- C4: any strategy name outside the registry (including the empty
string) produces exactly the same quote as "default" on the same request,
while a record persisted by the call carries the originally requested
string in `strategy_used`, not "default". -/
theorem unknown_strategy_fallback (store : List PricingHistory) (append_ok : Bool)
    (req : PricingRequest) (s : String)
    (h1 : s ≠ "default") (h2 : s ≠ "aggressive") (h3 : s ≠ "conservative") :
    (calculate store append_ok req s).1 = (calculate store append_ok req "default").1 ∧
    ((calculate store append_ok req s).2 = store ∨
      ∃ rec, (calculate store append_ok req s).2 = store ++ [rec] ∧
        rec.strategy_used = s) := by
  have hlook : price_adjustment_strategies s = none := by
    unfold price_adjustment_strategies
    rw [if_neg h1, if_neg h2, if_neg h3]
  have hdef : price_adjustment_strategies "default" = some calculate_default_price := by
    unfold price_adjustment_strategies
    rw [if_pos rfl]
  unfold calculate
  rw [hlook, hdef]
  simp only [Option.getD_none, Option.getD_some]
  cases hm : calculate_default_price req with
  | error e => simp [hm]
  | ok pd =>
    simp only [hm]
    cases append_ok with
    | true => exact ⟨rfl, Or.inr ⟨_, rfl, rfl⟩⟩
    | false => exact ⟨rfl, Or.inl rfl⟩

theorem unknown_strategy_fallback_witness :
    (("turbo" ≠ "default") ∧ ("turbo" ≠ "aggressive") ∧ ("turbo" ≠ "conservative")) ∧
    ((calculate [] true exReq "turbo").1 = (calculate [] true exReq "default").1 ∧
      ((calculate [] true exReq "turbo").2 = [] ∨
        ∃ rec, (calculate [] true exReq "turbo").2 = [] ++ [rec] ∧
          rec.strategy_used = "turbo")) :=
  ⟨⟨by decide, by decide, by decide⟩,
    unknown_strategy_fallback [] true exReq "turbo" (by decide) (by decide) (by decide)⟩

/-- C5: the default calculator faults exactly when the competitor price is
0, and in that case `calculate` with the "default" strategy propagates the
fault to the caller while the stored history is left unchanged (no record
is appended). -/
theorem default_zero_division (req : PricingRequest) (store : List PricingHistory)
    (append_ok : Bool) :
    (calculate_default_price req = .error .arithmeticFault ↔ req.competitor_price = 0) ∧
    (req.competitor_price = 0 →
      calculate store append_ok req "default" = (.error .arithmeticFault, store)) := by
  have hdef : price_adjustment_strategies "default" = some calculate_default_price := by
    unfold price_adjustment_strategies
    rw [if_pos rfl]
  constructor
  · constructor
    · intro h
      by_contra hne
      unfold calculate_default_price at h
      rw [if_neg hne] at h
      simp at h
    · intro h
      unfold calculate_default_price
      rw [if_pos h]
  · intro h
    unfold calculate
    rw [hdef]
    simp only [Option.getD_some]
    have hfault : calculate_default_price req = .error .arithmeticFault := by
      unfold calculate_default_price
      rw [if_pos h]
    rw [hfault]

theorem default_zero_division_witness :
    reqZeroComp.competitor_price = 0 ∧
    calculate_default_price reqZeroComp = .error .arithmeticFault ∧
    calculate [] true reqZeroComp "default" = (.error .arithmeticFault, []) :=
  ⟨rfl, (default_zero_division reqZeroComp [] true).1.mpr rfl,
    (default_zero_division reqZeroComp [] true).2 rfl⟩

/-- C6: when the storage append performed by `calculate` fails, the
failure propagates to the caller, the computed quote is not returned, and
the stored history is unchanged; there is no retry. -/
theorem storage_failure_blocks_quote (store : List PricingHistory)
    (req : PricingRequest) (strategy : String) (q : PriceQuote)
    (hok : ((price_adjustment_strategies strategy).getD calculate_default_price) req = .ok q) :
    calculate store false req strategy = (.error .storageWriteFailure, store) := by
  unfold calculate
  rw [hok]
  rfl

theorem storage_failure_blocks_quote_witness :
    ((price_adjustment_strategies "default").getD calculate_default_price) exReq =
      .ok exQuoteDefault ∧
    calculate [] false exReq "default" = (.error .storageWriteFailure, []) := by
  have hok : ((price_adjustment_strategies "default").getD calculate_default_price) exReq =
      .ok exQuoteDefault := by
    have hdef : price_adjustment_strategies "default" = some calculate_default_price := by
      unfold price_adjustment_strategies
      rw [if_pos rfl]
    rw [hdef, Option.getD_some]
    simp only [calculate_default_price, exReq, exQuoteDefault, get_base_markup, factor,
      round2, List.find?, List.zip,
      show ("standard" = "premium") = False from by simp,
      show ("standard" = "standard") = True from by simp,
      if_false, if_true]
    norm_num [round_eq]
  exact ⟨hok, storage_failure_blocks_quote [] exReq "default" exQuoteDefault hok⟩

/-- C9: every successful invocation of `calculate` extends the stored
history by exactly one appended record, leaving the previously written
records untouched. -/
theorem one_record_per_success (store : List PricingHistory) (append_ok : Bool)
    (req : PricingRequest) (strategy : String) (q : PriceQuote)
    (store2 : List PricingHistory)
    (h : calculate store append_ok req strategy = (.ok q, store2)) :
    ∃ rec, store2 = store ++ [rec] := by
  unfold calculate at h
  cases hm : (price_adjustment_strategies strategy).getD calculate_default_price req with
  | error e =>
    rw [hm] at h
    simp at h
  | ok pd =>
    rw [hm] at h
    cases append_ok with
    | true =>
      simp only [eq_self_iff_true, if_true, Prod.mk.injEq] at h
      exact ⟨_, h.2.symm⟩
    | false => simp at h

theorem one_record_per_success_witness :
    calculate [] true exReq "default" = (.ok exQuoteDefault, [exRecord]) ∧
    ∃ rec, [exRecord] = [] ++ [rec] := by
  have h : calculate [] true exReq "default" = (.ok exQuoteDefault, [exRecord]) := by
    have hdef : price_adjustment_strategies "default" = some calculate_default_price := by
      unfold price_adjustment_strategies
      rw [if_pos rfl]
    unfold calculate
    rw [hdef]
    simp only [Option.getD_some]
    have hq : calculate_default_price exReq = .ok exQuoteDefault := by
      simp only [calculate_default_price, exReq, exQuoteDefault, get_base_markup, factor,
        round2, List.find?, List.zip,
        show ("standard" = "premium") = False from by simp,
        show ("standard" = "standard") = True from by simp,
        if_false, if_true]
      norm_num [round_eq]
    rw [hq]
    simp [exReq, exRecord, exQuoteDefault]
  exact ⟨h, one_record_per_success [] true exReq "default" exQuoteDefault [exRecord] h⟩

/-- C10: the aggressive and conservative calculators are total on every
pricing request, including a zero competitor price, while the default
calculator faults on a zero competitor price. -/
theorem side_calculators_total (req : PricingRequest) :
    (∃ q, calculate_aggressive_price req = .ok q) ∧
    (∃ q, calculate_conservative_price req = .ok q) ∧
    (req.competitor_price = 0 → calculate_default_price req = .error .arithmeticFault) := by
  refine ⟨⟨_, rfl⟩, ⟨_, rfl⟩, fun h => ?_⟩
  unfold calculate_default_price
  rw [if_pos h]

theorem side_calculators_total_witness :
    reqZeroComp.competitor_price = 0 ∧
    (∃ q, calculate_aggressive_price reqZeroComp = .ok q) ∧
    (∃ q, calculate_conservative_price reqZeroComp = .ok q) ∧
    calculate_default_price reqZeroComp = .error .arithmeticFault :=
  ⟨rfl, (side_calculators_total reqZeroComp).1, (side_calculators_total reqZeroComp).2.1,
    (side_calculators_total reqZeroComp).2.2 rfl⟩

end DynamicPricing
